import Mathlib

/-!
Shallow embedding of the KAppTech content-management backend
(Express + Mongoose, TypeScript) and proofs of its specified properties.

Conventions used throughout:
* Machine strings are Lean `String`s; all computations on them go through
  `List Char` helpers that are structurally recursive, so every definition
  evaluates inside the kernel.
* JavaScript `undefined` is `Option.none`; JS truthiness of an optional
  string (`if (x)`) is `tvStr`, of an optional number is `tvNat`.
* Dates are modelled as natural-number timestamps; `new Date()` is the
  `now` parameter threaded into each handler.
* Mongoose's `isModified(path)` is modelled by comparing the in-memory
  document against the state last loaded from the database (`stored`);
  a newly constructed document (`stored = none`) has every path modified.
-/

namespace KAppTech

/-- JS truthiness of an optional string: `undefined` and `""` are falsy. -/
def tvStr : Option String → Bool
  | none => false
  | some s => s ≠ ""

/-- JS truthiness of an optional number: `undefined` and `0` are falsy. -/
def tvNat : Option Nat → Bool
  | none => false
  | some n => n ≠ 0

/-- `if (x) doc.f = x` on a string field: assign only when truthy. -/
def setIfTruthy (cur : String) : Option String → String
  | none => cur
  | some s => if s = "" then cur else s

/-- Characters of a string with leading and trailing whitespace removed
(the behaviour of JS `String.prototype.trim`). -/
def trimChars (cs : List Char) : List Char :=
  ((cs.dropWhile Char.isWhitespace).reverse.dropWhile Char.isWhitespace).reverse

/-- JS `s.trim()`. -/
def jsTrim (s : String) : String := String.mk (trimChars s.data)

/-- Substring test on character lists (used to model the `$regex` substring
matches of the list endpoints). -/
def containsSubList (hay needle : List Char) : Bool :=
  needle.isPrefixOf hay ||
    match hay with
    | [] => false
    | _ :: t => containsSubList t needle

/-- Case-insensitive substring match, modelling `{$regex: s, $options: 'i'}`
applied to a search string without regex metacharacters. -/
def ciContains (hay needle : String) : Bool :=
  containsSubList (hay.data.map Char.toLower) (needle.data.map Char.toLower)

/-- Case-insensitive string equality, modelling the
`new RegExp('^' + title + '$', 'i')` exact-title match of the
duplicate-title checks. -/
def ciEq (a b : String) : Bool :=
  a.data.map Char.toLower == b.data.map Char.toLower

/-- JS `s.split(sep)` for a single-character separator (used by the posts
route: `content.split(' ')`). -/
def splitCharGo (sep : Char) : List Char → List Char → List String
  | [], acc => [String.mk acc.reverse]
  | c :: cs, acc =>
    if c = sep then String.mk acc.reverse :: splitCharGo sep cs []
    else splitCharGo sep cs (c :: acc)

def jsSplitChar (sep : Char) (s : String) : List String :=
  splitCharGo sep s.data []

/-- JS `s.split(/\s+/)`: maximal whitespace runs separate the pieces, and a
leading or trailing run contributes an empty piece (used by the post
pre-save hook's word count). `prevWs` records whether the previous
character belonged to a whitespace run. -/
def splitWsGo : Bool → List Char → List Char → List String
  | _, [], acc => [String.mk acc.reverse]
  | prevWs, c :: cs, acc =>
    if c.isWhitespace then
      if prevWs then splitWsGo true cs acc
      else String.mk acc.reverse :: splitWsGo true cs []
    else splitWsGo false cs (c :: acc)

def jsSplitWs (s : String) : List String := splitWsGo false s.data []

/-! ### The `slugify` library with `{ lower: true, strict: true }`

For ASCII input and these options the library reduces to: the replacement
character `'-'` is first mapped to a space; strict mode then removes every
character that is not alphanumeric or whitespace; the result is trimmed;
maximal whitespace runs become a single `'-'`; finally the string is
lowercased. -/

def slugMapChar (c : Char) : Char := if c = '-' then ' ' else c

def slugKeep (c : Char) : Bool := c.isAlphanum || c.isWhitespace

/-- Replace each maximal whitespace run with a single `'-'`; the input is
already trimmed so no run is leading or trailing. `inWs` records whether
the previous character was whitespace. -/
def squashWsGo : Bool → List Char → List Char
  | _, [] => []
  | inWs, c :: cs =>
    if c.isWhitespace then squashWsGo true cs
    else (if inWs then ['-', c] else [c]) ++ squashWsGo false cs

def slugify (s : String) : String :=
  let mapped := s.data.map slugMapChar
  let kept := mapped.filter slugKeep
  let trimmed := trimChars kept
  String.mk ((squashWsGo false trimmed).map Char.toLower)

/-! ### Post data model (`src/models/Post.ts`) -/

structure Seo where
  metaTitle : Option String
  metaDescription : Option String
  keywords : List String
  ogImage : Option String
deriving Repr, DecidableEq, Inhabited

structure Post where
  title : String
  slug : String
  content : String
  excerpt : String
  status : String
  category : String
  tags : List String
  featuredImage : Option String
  author : Nat
  readTime : Nat
  viewCount : Nat
  likes : Nat
  featured : Bool
  publishedAt : Option Nat
  scheduledAt : Option Nat
  seo : Option Seo
deriving Repr, DecidableEq, Inhabited

/-- `this.isModified('title')` for a post: every path of a new document
counts as modified; otherwise compare with the stored state. -/
def postTitleModified (stored : Option Post) (p : Post) : Bool :=
  match stored with
  | none => true
  | some s => p.title ≠ s.title

def postContentModified (stored : Option Post) (p : Post) : Bool :=
  match stored with
  | none => true
  | some s => p.content ≠ s.content

def postStatusModified (stored : Option Post) (p : Post) : Bool :=
  match stored with
  | none => true
  | some s => p.status ≠ s.status

/-- Word count of the pre-save hook: `content.split(/\s+/).length`. -/
def wordCount (content : String) : Nat := (jsSplitWs content).length

/-- Hook step: `if (this.isModified('title')) this.slug = slugify(this.title, {lower: true, strict: true})`. -/
def postSlugStep (stored : Option Post) (p : Post) : Post :=
  if postTitleModified stored p then { p with slug := slugify p.title } else p

/-- Hook step: `if (this.isModified('content')) this.readTime = Math.ceil(wordCount / 200)`. -/
def postReadTimeStep (stored : Option Post) (p : Post) : Post :=
  if postContentModified stored p
  then { p with readTime := (wordCount p.content + 199) / 200 }
  else p

/-- Hook step: `if (this.isModified('status') && this.status === 'published' && !this.publishedAt) this.publishedAt = new Date()`. -/
def postPublishStep (stored : Option Post) (p : Post) (now : Nat) : Post :=
  if postStatusModified stored p ∧ p.status = "published" ∧ p.publishedAt = none
  then { p with publishedAt := some now }
  else p

/-- The `postSchema.pre('save')` hook, run when the in-memory document `p`
is saved while the database holds `stored`. -/
def postPreSave (stored : Option Post) (p : Post) (now : Nat) : Post :=
  postPublishStep stored (postReadTimeStep stored (postSlugStep stored p)) now

/-! ### Post routes (`src/routes/posts.ts`) -/

/-- Request body of `PUT /api/posts/:id`; every field may be absent. -/
structure PostUpdateBody where
  title : Option String
  content : Option String
  excerpt : Option String
  status : Option String
  category : Option String
  tags : Option (List String)
  featuredImage : Option String
  featured : Option Bool
  readTime : Option Nat
  seo : Option Seo
  scheduledAt : Option Nat
deriving Repr, DecidableEq, Inhabited

/-- The field-assignment block of the `PUT /api/posts/:id` handler.  Each
line mirrors one `if (...) post.f = ...` statement; the assignments are
independent, so they are written as a single record update.  The final
`publishedAt` line is the route's own
`if (status === 'published' && post.status !== 'published')` check, which
reads `post.status` after it has already been assigned. -/
def applyPostUpdate (p : Post) (b : PostUpdateBody) (now : Nat) : Post :=
  let status' := setIfTruthy p.status b.status
  { p with
    title := setIfTruthy p.title b.title,
    content := setIfTruthy p.content b.content,
    -- if (content) { post.content = content; post.readTime = readTime || Math.ceil(content.split(' ').length / 200) }
    -- followed by: if (readTime !== undefined) post.readTime = readTime
    readTime :=
      match b.readTime with
      | some r => r
      | none =>
        match b.content with
        | some c => if c ≠ "" then ((jsSplitChar ' ' c).length + 199) / 200 else p.readTime
        | none => p.readTime,
    excerpt := b.excerpt.getD p.excerpt,
    status := status',
    category := setIfTruthy p.category b.category,
    tags := b.tags.getD p.tags,
    featuredImage := b.featuredImage.or p.featuredImage,
    featured := b.featured.getD p.featured,
    seo := if b.seo.isSome then b.seo else p.seo,
    scheduledAt := b.scheduledAt.or p.scheduledAt,
    publishedAt :=
      if b.status = some "published" ∧ status' ≠ "published"
      then some now else p.publishedAt }

/-- Successful path of `PUT /api/posts/:id`: apply the body to the stored
document, then save (which runs the pre-save hook).  The 404 and
duplicate-title early returns leave the stored document untouched and are
not represented. -/
def updatePost (stored : Post) (b : PostUpdateBody) (now : Nat) : Post :=
  postPreSave (some stored) (applyPostUpdate stored b now) now

/-- Request body of `POST /api/posts`. -/
structure PostCreateBody where
  title : Option String
  content : Option String
  excerpt : Option String
  status : Option String
  category : Option String
  tags : Option (List String)
  featuredImage : Option String
  featured : Option Bool
  readTime : Option Nat
  seo : Option Seo
  scheduledAt : Option Nat
deriving Repr, DecidableEq, Inhabited

/-- Outcome of a mutating handler: HTTP status, `success` flag, and the
document passed to `save`, if any. -/
structure PostResult where
  status : Nat
  success : Bool
  message : String
  saved : Option Post
deriving Repr, DecidableEq, Inhabited

/-- The `POST /api/posts` handler.  `titleExists` is the result of the
duplicate-title lookup; `authorId` is `req.user.id`. -/
def createPost (b : PostCreateBody) (authorId : Nat) (titleExists : Bool)
    (now : Nat) : PostResult :=
  if ¬ (tvStr b.title ∧ tvStr b.content ∧ tvStr b.category) then
    { status := 400, success := false,
      message := "Title, content, and category are required", saved := none }
  else if titleExists then
    { status := 400, success := false,
      message := "A post with this title already exists", saved := none }
  else
    let status := b.status.getD "draft"
    let content := b.content.getD ""
    -- const calculatedReadTime = readTime || Math.ceil(content.split(' ').length / 200)
    let calculatedReadTime :=
      if tvNat b.readTime then b.readTime.getD 0
      else ((jsSplitChar ' ' content).length + 199) / 200
    let post : Post :=
      { title := b.title.getD ""
        slug := ""  -- set by the pre-save hook
        content := content
        -- excerpt: excerpt || content.substring(0, 300) + '...'
        excerpt := if tvStr b.excerpt then b.excerpt.getD ""
                   else (content.take 300) ++ "..."
        status := status
        category := b.category.getD ""
        tags := b.tags.getD []
        featuredImage := b.featuredImage
        author := authorId
        readTime := calculatedReadTime
        viewCount := 0
        likes := 0
        featured := b.featured.getD false
        publishedAt := if status = "published" then some now else none
        scheduledAt := b.scheduledAt
        seo := b.seo }
    { status := 201, success := true, message := "Post created successfully",
      saved := some (postPreSave none post now) }

/-! ### Page data model (`src/models/Page.ts`) -/

structure Page where
  id : Nat
  title : String
  slug : String
  content : String
  excerpt : Option String
  status : String
  pageType : String
  featured : Bool
  featuredImage : Option String
  seo : Option Seo
  template : Option String
  customCSS : Option String
  customJS : Option String
  isHomePage : Bool
  parentPage : Option Nat
  sortOrder : Int
  publishedAt : Option Nat
  viewCount : Nat
  author : Nat
deriving Repr, DecidableEq, Inhabited

def pageTitleModified (stored : Option Page) (p : Page) : Bool :=
  match stored with
  | none => true
  | some s => p.title ≠ s.title

def pageStatusModified (stored : Option Page) (p : Page) : Bool :=
  match stored with
  | none => true
  | some s => p.status ≠ s.status

/-- Hook step: `if (this.isModified('title')) this.slug = slugify(this.title, {lower: true, strict: true})`. -/
def pageSlugStep (stored : Option Page) (p : Page) : Page :=
  if pageTitleModified stored p then { p with slug := slugify p.title } else p

/-- Hook step: `if (this.isModified('status') && this.status === 'published' && !this.publishedAt) this.publishedAt = new Date()`. -/
def pagePublishStep (stored : Option Page) (p : Page) (now : Nat) : Page :=
  if pageStatusModified stored p ∧ p.status = "published" ∧ p.publishedAt = none
  then { p with publishedAt := some now }
  else p

/-- The `pageSchema.pre('save')` hook. -/
def pagePreSave (stored : Option Page) (p : Page) (now : Nat) : Page :=
  pagePublishStep stored (pageSlugStep stored p) now

/-! ### Page routes (`src/routes/pages.ts`) -/

/-- Request body of `PUT /api/pages/:id`. -/
structure PageUpdateBody where
  title : Option String
  content : Option String
  excerpt : Option String
  status : Option String
  pageType : Option String
  featured : Option Bool
  featuredImage : Option String
  seo : Option Seo
  template : Option String
  customCSS : Option String
  customJS : Option String
  isHomePage : Option Bool
  parentPage : Option Nat
  sortOrder : Option Int
deriving Repr, DecidableEq, Inhabited

/-- The field-assignment block of the `PUT /api/pages/:id` handler; the
final `publishedAt` line is the route's
`if (status === 'published' && page.status !== 'published')` check, which
reads `page.status` after it has already been assigned. -/
def applyPageUpdate (p : Page) (b : PageUpdateBody) (now : Nat) : Page :=
  let status' := setIfTruthy p.status b.status
  { p with
    title := setIfTruthy p.title b.title,
    content := setIfTruthy p.content b.content,
    excerpt := b.excerpt.or p.excerpt,
    status := status',
    pageType := setIfTruthy p.pageType b.pageType,
    featured := b.featured.getD p.featured,
    featuredImage := b.featuredImage.or p.featuredImage,
    seo := if b.seo.isSome then b.seo else p.seo,
    template := b.template.or p.template,
    customCSS := b.customCSS.or p.customCSS,
    customJS := b.customJS.or p.customJS,
    isHomePage := b.isHomePage.getD p.isHomePage,
    parentPage := b.parentPage.or p.parentPage,
    sortOrder := b.sortOrder.getD p.sortOrder,
    publishedAt :=
      if b.status = some "published" ∧ status' ≠ "published"
      then some now else p.publishedAt }

/-- Successful path of `PUT /api/pages/:id` on a single document. -/
def updatePage (stored : Page) (b : PageUpdateBody) (now : Nat) : Page :=
  pagePreSave (some stored) (applyPageUpdate stored b now) now

/-- Request body of `POST /api/pages` (`title` and `content` are always
sent by the client; the route performs no required-field validation). -/
structure PageCreateBody where
  title : String
  content : String
  excerpt : Option String
  status : Option String
  pageType : Option String
  featured : Option Bool
  featuredImage : Option String
  seo : Option Seo
  template : Option String
  customCSS : Option String
  customJS : Option String
  isHomePage : Option Bool
  parentPage : Option Nat
  sortOrder : Option Int
deriving Repr, DecidableEq, Inhabited

/-- `Page.updateMany({ isHomePage: true }, { isHomePage: false })`. -/
def unsetAllHomePages (db : List Page) : List Page :=
  db.map fun p => { p with isHomePage := false }

/-- The `POST /api/pages` handler acting on the whole page collection.
Returns the new collection and the document passed to `save` (none on the
duplicate-title 400). -/
def createPageDb (db : List Page) (b : PageCreateBody)
    (authorId newId now : Nat) : List Page × Option Page :=
  -- const existingPage = await Page.findOne({ title: new RegExp('^'+title+'$','i') })
  if db.any (fun p => ciEq p.title b.title) then (db, none)
  else
    -- if (isHomePage) await Page.updateMany({ isHomePage: true }, { isHomePage: false })
    let db := if b.isHomePage.getD false then unsetAllHomePages db else db
    let status := b.status.getD "draft"
    let page : Page :=
      { id := newId
        title := b.title
        slug := ""  -- set by the pre-save hook
        content := b.content
        excerpt := b.excerpt
        status := status
        pageType := b.pageType.getD "custom"
        featured := b.featured.getD false
        featuredImage := b.featuredImage
        seo := b.seo
        template := b.template
        customCSS := b.customCSS
        customJS := b.customJS
        isHomePage := b.isHomePage.getD false
        parentPage := b.parentPage
        sortOrder := b.sortOrder.getD 0
        publishedAt := if status = "published" then some now else none
        viewCount := 0
        author := authorId }
    let saved := pagePreSave none page now
    (db ++ [saved], some saved)

/-- The `PUT /api/pages/:id` handler acting on the whole page collection.
The 404 and duplicate-title branches leave the collection unchanged. -/
def updatePageDb (db : List Page) (pid : Nat) (b : PageUpdateBody)
    (now : Nat) : List Page :=
  match db.find? (fun p => p.id == pid) with
  | none => db
  | some page =>
    -- if (title && title !== page.title) { duplicate-title lookup excluding pid }
    if tvStr b.title ∧ b.title ≠ some page.title ∧
        db.any (fun q => ciEq q.title (b.title.getD "") && q.id ≠ pid) then
      db
    else
      -- if (isHomePage && !page.isHomePage) await Page.updateMany(...)
      let db1 := if b.isHomePage.getD false ∧ ¬ page.isHomePage
                 then unsetAllHomePages db else db
      -- field assignments on the in-memory document loaded before updateMany,
      -- then page.save() writes it back wholesale
      let page' := updatePage page b now
      db1.map fun q => if q.id == pid then page' else q

/-- The implicit global invariant: at most one page is the home page. -/
def atMostOneHomePage (db : List Page) : Prop :=
  (db.filter (fun p => p.isHomePage)).length ≤ 1

/-! ### Case study data model (`src/models/CaseStudy.ts`) -/

structure Technology where
  name : Option String
  category : Option String
deriving Repr, DecidableEq, Inhabited

structure ClientInfo where
  name : String
  industry : Option String
  logo : Option String
  website : Option String
deriving Repr, DecidableEq, Inhabited

structure ProjectInfo where
  description : String
  challenge : String
  solution : String
  results : String
  duration : String
  teamSize : Option Nat
deriving Repr, DecidableEq, Inhabited

structure ImagesInfo where
  featured : String
  gallery : List String
  screenshots : List String
deriving Repr, DecidableEq, Inhabited

structure CsTestimonial where
  quote : Option String
  authorName : Option String
  authorPosition : Option String
  authorCompany : Option String
  authorAvatar : Option String
deriving Repr, DecidableEq, Inhabited

structure Metric where
  label : Option String
  value : Option String
  improvement : Option String
deriving Repr, DecidableEq, Inhabited

structure CaseStudy where
  title : String
  slug : String
  description : String
  content : String
  category : String
  technologies : List Technology
  client : Option ClientInfo
  project : Option ProjectInfo
  images : Option ImagesInfo
  testimonial : Option CsTestimonial
  metrics : List Metric
  status : String
  isFeatured : Bool
  seo : Option Seo
  publishedAt : Option Nat
  viewCount : Nat
  likes : Nat
  author : Nat
deriving Repr, DecidableEq, Inhabited

def csTitleModified (stored : Option CaseStudy) (p : CaseStudy) : Bool :=
  match stored with
  | none => true
  | some s => p.title ≠ s.title

def csStatusModified (stored : Option CaseStudy) (p : CaseStudy) : Bool :=
  match stored with
  | none => true
  | some s => p.status ≠ s.status

/-- Hook step: `if (this.isModified('title')) this.slug = slugify(this.title, {lower: true, strict: true})`. -/
def csSlugStep (stored : Option CaseStudy) (p : CaseStudy) : CaseStudy :=
  if csTitleModified stored p then { p with slug := slugify p.title } else p

/-- Hook step: `if (this.isModified('status') && this.status === 'published' && !this.publishedAt) this.publishedAt = new Date()`. -/
def csPublishStep (stored : Option CaseStudy) (p : CaseStudy) (now : Nat) : CaseStudy :=
  if csStatusModified stored p ∧ p.status = "published" ∧ p.publishedAt = none
  then { p with publishedAt := some now }
  else p

/-- The `caseStudySchema.pre('save')` hook. -/
def csPreSave (stored : Option CaseStudy) (p : CaseStudy) (now : Nat) : CaseStudy :=
  csPublishStep stored (csSlugStep stored p) now

/-! ### Case study routes (`src/routes/caseStudies.ts`) -/

/-- Request body of `PUT /api/case-studies/:id`. -/
structure CaseStudyUpdateBody where
  title : Option String
  description : Option String
  content : Option String
  category : Option String
  technologies : Option (List Technology)
  client : Option ClientInfo
  project : Option ProjectInfo
  images : Option ImagesInfo
  testimonial : Option CsTestimonial
  metrics : Option (List Metric)
  status : Option String
  isFeatured : Option Bool
  seo : Option Seo
deriving Repr, DecidableEq, Inhabited

/-- The field-assignment block of the `PUT /api/case-studies/:id` handler;
the final `publishedAt` line is the route's
`if (status === 'published' && caseStudy.status !== 'published')` check,
which reads `caseStudy.status` after it has already been assigned. -/
def applyCaseStudyUpdate (p : CaseStudy) (b : CaseStudyUpdateBody) (now : Nat) :
    CaseStudy :=
  let status' := setIfTruthy p.status b.status
  { p with
    title := setIfTruthy p.title b.title,
    description := setIfTruthy p.description b.description,
    content := setIfTruthy p.content b.content,
    category := setIfTruthy p.category b.category,
    technologies := b.technologies.getD p.technologies,
    client := b.client.or p.client,
    project := b.project.or p.project,
    images := b.images.or p.images,
    testimonial := b.testimonial.or p.testimonial,
    metrics := b.metrics.getD p.metrics,
    status := status',
    isFeatured := b.isFeatured.getD p.isFeatured,
    seo := if b.seo.isSome then b.seo else p.seo,
    publishedAt :=
      if b.status = some "published" ∧ status' ≠ "published"
      then some now else p.publishedAt }

/-- Successful path of `PUT /api/case-studies/:id`. -/
def updateCaseStudy (stored : CaseStudy) (b : CaseStudyUpdateBody) (now : Nat) :
    CaseStudy :=
  csPreSave (some stored) (applyCaseStudyUpdate stored b now) now

/-! ### Testimonial data model (`src/models/Testimonial.ts`) -/

structure ContactInfo where
  email : Option String
  phone : Option String
  linkedin : Option String
  website : Option String
deriving Repr, DecidableEq, Inhabited

structure ProjectDetails where
  services : List String
  technologies : List String
  outcome : Option String
  challenges : Option String
deriving Repr, DecidableEq, Inhabited

structure Testimonial where
  name : String
  position : String
  company : String
  content : String
  rating : Rat
  avatar : String
  projectTitle : Option String
  projectCategory : Option String
  location : Option String
  testimonialType : String
  status : String
  isPublic : Bool
  isFeatured : Bool
  dateGiven : Nat
  projectDuration : Option String
  projectValue : Option String
  source : String
  tags : List String
  contactInfo : Option ContactInfo
  projectDetails : Option ProjectDetails
  order : Int
deriving Repr, DecidableEq, Inhabited

/-! ### Testimonial routes (`src/routes/testimonials.ts`) -/

structure TestimonialResult where
  status : Nat
  success : Bool
  message : String
  saved : Option Testimonial
deriving Repr, DecidableEq, Inhabited

/-- Request body of `POST /api/testimonials` (admin/editor create). -/
structure TestimonialCreateBody where
  name : Option String
  position : Option String
  company : Option String
  content : Option String
  rating : Option Rat
  avatar : Option String
  projectTitle : Option String
  projectCategory : Option String
  location : Option String
  testimonialType : Option String
  status : Option String
  isPublic : Option Bool
  isFeatured : Option Bool
  dateGiven : Option Nat
  projectDuration : Option String
  projectValue : Option String
  source : Option String
  tags : Option (List String)
  contactInfo : Option ContactInfo
  projectDetails : Option ProjectDetails
  order : Option Int
deriving Repr, DecidableEq, Inhabited

/-- The `POST /api/testimonials` handler (destructuring defaults applied,
then the required-field check, then the rating check). -/
def createTestimonial (b : TestimonialCreateBody) (now : Nat) : TestimonialResult :=
  let rating := b.rating.getD 5
  if ¬ (tvStr b.name ∧ tvStr b.position ∧ tvStr b.company ∧ tvStr b.content) then
    { status := 400, success := false,
      message := "Name, position, company, and content are required", saved := none }
  else if rating < 1 ∨ rating > 5 then
    { status := 400, success := false,
      message := "Rating must be between 1 and 5", saved := none }
  else
    { status := 201, success := true,
      message := "Testimonial created successfully",
      saved := some
        { name := b.name.getD ""
          position := b.position.getD ""
          company := b.company.getD ""
          content := b.content.getD ""
          rating := rating
          avatar := b.avatar.getD ""  -- schema default ''
          projectTitle := b.projectTitle
          projectCategory := b.projectCategory
          location := b.location
          testimonialType := b.testimonialType.getD "client"
          status := b.status.getD "pending"
          isPublic := b.isPublic.getD false
          isFeatured := b.isFeatured.getD false
          -- dateGiven: dateGiven || new Date()
          dateGiven := if tvNat b.dateGiven then b.dateGiven.getD 0 else now
          projectDuration := b.projectDuration
          projectValue := b.projectValue
          source := b.source.getD "website"
          tags := b.tags.getD []
          contactInfo := b.contactInfo
          projectDetails := b.projectDetails
          order := b.order.getD 0 } }

/-- Request body of the public `POST /api/testimonials/submit` endpoint.
`status`, `isPublic` and `isFeatured` may well be present in the raw body,
but the handler never destructures them; they are carried here to state
that the outcome is independent of them. -/
structure TestimonialSubmitBody where
  name : Option String
  position : Option String
  company : Option String
  content : Option String
  rating : Option Rat
  projectTitle : Option String
  projectCategory : Option String
  location : Option String
  testimonialType : Option String
  projectDuration : Option String
  projectValue : Option String
  contactInfo : Option ContactInfo
  projectDetails : Option ProjectDetails
  status : Option String
  isPublic : Option Bool
  isFeatured : Option Bool
deriving Repr, DecidableEq, Inhabited

/-- The public `POST /api/testimonials/submit` handler. -/
def submitTestimonial (b : TestimonialSubmitBody) (now : Nat) : TestimonialResult :=
  let rating := b.rating.getD 5
  if ¬ (tvStr b.name ∧ tvStr b.position ∧ tvStr b.company ∧ tvStr b.content) then
    { status := 400, success := false,
      message := "Name, position, company, and content are required", saved := none }
  else if rating < 1 ∨ rating > 5 then
    { status := 400, success := false,
      message := "Rating must be between 1 and 5", saved := none }
  else
    { status := 201, success := true,
      message := "Thank you for your testimonial! It will be reviewed and published soon.",
      saved := some
        { name := b.name.getD ""
          position := b.position.getD ""
          company := b.company.getD ""
          content := b.content.getD ""
          rating := rating
          avatar := ""  -- schema default ''
          projectTitle := b.projectTitle
          projectCategory := b.projectCategory
          location := b.location
          testimonialType := b.testimonialType.getD "client"
          status := "pending"  -- All public submissions are pending
          isPublic := false
          isFeatured := false
          dateGiven := now
          projectDuration := b.projectDuration
          projectValue := b.projectValue
          source := "website"
          tags := []  -- schema default
          contactInfo := b.contactInfo
          projectDetails := b.projectDetails
          order := 0 } }

/-- Request body of `PUT /api/testimonials/:id`. -/
structure TestimonialUpdateBody where
  name : Option String
  position : Option String
  company : Option String
  content : Option String
  rating : Option Rat
  avatar : Option String
  projectTitle : Option String
  projectCategory : Option String
  location : Option String
  testimonialType : Option String
  status : Option String
  isPublic : Option Bool
  isFeatured : Option Bool
  dateGiven : Option Nat
  projectDuration : Option String
  projectValue : Option String
  source : Option String
  tags : Option (List String)
  contactInfo : Option ContactInfo
  projectDetails : Option ProjectDetails
  order : Option Int
deriving Repr, DecidableEq, Inhabited

/-- The `PUT /api/testimonials/:id` handler on the found document
(`stored`); the 404 branch is not represented. -/
def updateTestimonial (stored : Testimonial) (b : TestimonialUpdateBody) :
    TestimonialResult :=
  -- if (rating !== undefined && (rating < 1 || rating > 5)) return 400
  if b.rating.isSome ∧ ((b.rating.getD 0) < 1 ∨ (b.rating.getD 0) > 5) then
    { status := 400, success := false,
      message := "Rating must be between 1 and 5", saved := none }
  else
    { status := 200, success := true,
      message := "Testimonial updated successfully",
      saved := some
        { stored with
          name := setIfTruthy stored.name b.name
          position := setIfTruthy stored.position b.position
          company := setIfTruthy stored.company b.company
          content := setIfTruthy stored.content b.content
          rating := b.rating.getD stored.rating
          avatar := b.avatar.getD stored.avatar
          projectTitle := b.projectTitle.or stored.projectTitle
          projectCategory := b.projectCategory.or stored.projectCategory
          location := b.location.or stored.location
          testimonialType := setIfTruthy stored.testimonialType b.testimonialType
          status := setIfTruthy stored.status b.status
          isPublic := b.isPublic.getD stored.isPublic
          isFeatured := b.isFeatured.getD stored.isFeatured
          dateGiven := b.dateGiven.getD stored.dateGiven
          projectDuration := b.projectDuration.or stored.projectDuration
          projectValue := b.projectValue.or stored.projectValue
          source := setIfTruthy stored.source b.source
          tags := b.tags.getD stored.tags
          contactInfo := b.contactInfo.or stored.contactInfo
          projectDetails := b.projectDetails.or stored.projectDetails
          order := b.order.getD stored.order } }

/-! ### Contact data model (`src/models/Contact.ts`) -/

structure Contact where
  name : String
  email : String
  phone : Option String
  company : Option String
  subject : String
  message : String
  status : String
  priority : String
  source : String
  inquiryType : String
  budget : Option String
  timeline : Option String
  services : List String
  isNewsletter : Bool
  ipAddress : Option String
  userAgent : Option String
  responseDate : Option Nat
  notes : Option String
  assignedTo : Option Nat
  tags : List String
  followUpDate : Option Nat
deriving Repr, DecidableEq, Inhabited

/-! ### Contact routes (`src/routes/contact.ts`) -/

/-- Request body of `POST /api/contact`.  The validated fields are plain
strings (an absent field behaves as `""` under the validators); `status`
and `priority` may be present in the raw body but are never read by the
handler, which hardcodes them. -/
structure ContactBody where
  name : String
  email : String
  phone : Option String
  company : Option String
  subject : String
  message : String
  inquiryType : Option String
  budget : Option String
  timeline : Option String
  services : Option (List String)
  isNewsletter : Option Bool
  status : Option String
  priority : Option String
deriving Repr, DecidableEq, Inhabited

structure ContactResult where
  status : Nat
  success : Bool
  message : String
  errors : List String
  saved : Option Contact
deriving Repr, DecidableEq, Inhabited

/-- The express-validator chain of `POST /api/contact`.  `isEmail` stands
for the validator library's email check, which is external to the
repository. -/
def contactValidationErrors (isEmail : String → Bool) (b : ContactBody) :
    List String :=
  (if (jsTrim b.name).length < 2 then ["Name must be at least 2 characters"] else []) ++
  (if ¬ isEmail b.email then ["Please enter a valid email"] else []) ++
  (if (jsTrim b.subject).length < 5 then ["Subject must be at least 5 characters"] else []) ++
  (if (jsTrim b.message).length < 10 then ["Message must be at least 10 characters"] else [])

/-- The `POST /api/contact` handler.  The `trim()` sanitizers rewrite the
validated fields in place, so the stored values are the trimmed ones.
On success the route answers with `res.json`, i.e. HTTP 200. -/
def submitContact (isEmail : String → Bool) (b : ContactBody)
    (ip ua : Option String) : ContactResult :=
  let errors := contactValidationErrors isEmail b
  if errors ≠ [] then
    { status := 400, success := false, message := "Validation errors",
      errors := errors, saved := none }
  else
    { status := 200, success := true,
      message := "Thank you for your message. We will get back to you soon!",
      errors := [],
      saved := some
        { name := jsTrim b.name
          email := b.email
          phone := b.phone
          company := b.company
          subject := jsTrim b.subject
          message := jsTrim b.message
          status := "new"
          priority := "medium"
          source := "website"
          inquiryType := b.inquiryType.getD "general"
          budget := b.budget
          timeline := b.timeline
          services := b.services.getD []
          isNewsletter := b.isNewsletter.getD false
          ipAddress := ip
          userAgent := ua
          responseDate := none
          notes := none
          assignedTo := none
          tags := []
          followUpDate := none } }

/-- Request body of `PUT /api/contact/:id`. -/
structure ContactUpdateBody where
  status : Option String
  priority : Option String
  notes : Option String
  assignedTo : Option Nat
  followUpDate : Option Nat
  tags : Option (List String)
deriving Repr, DecidableEq, Inhabited

/-- The `PUT /api/contact/:id` handler on the found document.  The field
assignments run first; the `responseDate` guard
`if (status === 'replied' && contact.status !== 'replied')` then reads
`contact.status` after the assignment. -/
def updateContact (c : Contact) (b : ContactUpdateBody) (now : Nat) : Contact :=
  let c1 : Contact :=
    { c with
      status := setIfTruthy c.status b.status
      priority := setIfTruthy c.priority b.priority
      notes := b.notes.or c.notes
      assignedTo := b.assignedTo.or c.assignedTo
      followUpDate := b.followUpDate.or c.followUpDate
      tags := b.tags.getD c.tags }
  if b.status = some "replied" ∧ c1.status ≠ "replied"
  then { c1 with responseDate := some now }
  else c1

/-! ### Auth middleware (`src/middleware/auth.ts`) -/

structure AuthUser where
  id : String
  role : String
  isActive : Bool
deriving Repr, DecidableEq, Inhabited

/-- One of: proceed with the authenticated user attached, or reject with
an HTTP status and message. -/
inductive AuthOutcome where
  | ok (user : AuthUser)
  | reject (status : Nat) (message : String)
deriving Repr, DecidableEq, Inhabited

/-- JS `s.startsWith(pre)`. -/
def jsStartsWith (s pre : String) : Bool := pre.data.isPrefixOf s.data

/-- Token extraction of `protect`/`optionalAuth`:
`if (req.headers.authorization && req.headers.authorization.startsWith('Bearer'))
 token = req.headers.authorization.split(' ')[1]`. -/
def extractToken (authHeader : Option String) : Option String :=
  match authHeader with
  | none => none
  | some h =>
    if jsStartsWith h "Bearer" then (jsSplitChar ' ' h).get? 1 else none

/-- The `protect` middleware.  `verify` models `jwt.verify` (returning the
decoded user id, or `none` on an invalid or expired signature); `findUser`
models `User.findById`. -/
def protect (authHeader : Option String) (verify : String → Option String)
    (findUser : String → Option AuthUser) : AuthOutcome :=
  match extractToken authHeader with
  | none => .reject 401 "Access denied. No token provided."
  | some t =>
    -- if (!token): an empty split piece is falsy too
    if t = "" then .reject 401 "Access denied. No token provided."
    else
      match verify t with
      | none => .reject 401 "Token is not valid"
      | some uid =>
        match findUser uid with
        | none => .reject 401 "Token is not valid"
        | some u =>
          if ¬ u.isActive then .reject 401 "Account has been deactivated"
          else .ok u

/-- The `authorize(...roles)` middleware stage, reading `req.user` as left
by the previous stage. -/
def authorize (roles : List String) (user : Option AuthUser) : AuthOutcome :=
  match user with
  | none => .reject 403 "Role unknown is not authorized to access this route"
  | some u =>
    if ¬ roles.contains u.role then
      .reject 403 ("Role " ++ u.role ++ " is not authorized to access this route")
    else .ok u

/-- The `protect, authorize(...roles)` middleware chain used by every
privileged route. -/
def protectThenAuthorize (roles : List String) (authHeader : Option String)
    (verify : String → Option String) (findUser : String → Option AuthUser) :
    AuthOutcome :=
  match protect authHeader verify findUser with
  | .reject s m => .reject s m
  | .ok u => authorize roles (some u)

/-- The `optionalAuth` middleware: same decode, but never rejects. -/
def optionalAuth (authHeader : Option String) (verify : String → Option String)
    (findUser : String → Option AuthUser) : Option AuthUser :=
  match extractToken authHeader with
  | none => none
  | some t =>
    if t = "" then none
    else
      match verify t with
      | none => none
      | some uid =>
        match findUser uid with
        | none => none
        | some u => if u.isActive then some u else none

/-! ### List endpoints (query building, filtering, pagination)

The database calls `.find(query).sort(...).skip(skip).limit(limit)` are
modelled as: filter the collection by the query, apply an arbitrary
reordering `sortFn` (stated to be a permutation in the theorems), then
`drop skip` and `take limit`. -/

/-- `!req.user || (req.user.role !== 'admin' && req.user.role !== 'editor')`
negated: the callers allowed to see unpublished content. -/
def isPrivilegedContentUser : Option AuthUser → Bool
  | none => false
  | some u => u.role == "admin" || u.role == "editor"

/-- Parsed query string of `GET /api/posts` (after the `parseInt(..) || d`
defaults; `sort`/`order` are absorbed into the `sortFn` parameter). -/
structure PostListParams where
  page : Nat
  limit : Nat
  search : Option String
  category : Option String
  tag : Option String
  featured : Option String
deriving Repr, DecidableEq, Inhabited

/-- The mongo filter built by `GET /api/posts`. -/
structure PostQuery where
  status : Option String
  search : Option String
  category : Option String
  tag : Option String
  featured : Bool
deriving Repr, DecidableEq, Inhabited

def buildPostListQuery (user : Option AuthUser) (ps : PostListParams) : PostQuery :=
  { status := if isPrivilegedContentUser user then none else some "published"
    search := if tvStr ps.search then ps.search else none
    category := if tvStr ps.category then ps.category else none
    tag := if tvStr ps.tag then ps.tag else none
    featured := ps.featured = some "true" }

def postMatches (q : PostQuery) (p : Post) : Bool :=
  (match q.status with | some s => p.status == s | none => true) &&
  (match q.search with
   | some s => ciContains p.title s || ciContains p.content s || ciContains p.excerpt s
   | none => true) &&
  (match q.category with | some c => p.category == c | none => true) &&
  (match q.tag with | some t => p.tags.contains t | none => true) &&
  (!q.featured || p.featured)

def listPosts (db : List Post) (user : Option AuthUser) (ps : PostListParams)
    (sortFn : List Post → List Post) : List Post :=
  (((sortFn (db.filter (postMatches (buildPostListQuery user ps)))).drop
      ((ps.page - 1) * ps.limit)).take ps.limit)

/-- Parsed query string of `GET /api/pages`. -/
structure PageListParams where
  page : Nat
  limit : Nat
  search : Option String
  pageType : Option String
deriving Repr, DecidableEq, Inhabited

structure PageQuery where
  status : Option String
  search : Option String
  pageType : Option String
deriving Repr, DecidableEq, Inhabited

def buildPageListQuery (user : Option AuthUser) (ps : PageListParams) : PageQuery :=
  { status := if isPrivilegedContentUser user then none else some "published"
    search := if tvStr ps.search then ps.search else none
    pageType := if tvStr ps.pageType then ps.pageType else none }

def pageMatches (q : PageQuery) (p : Page) : Bool :=
  (match q.status with | some s => p.status == s | none => true) &&
  (match q.search with
   | some s => ciContains p.title s || ciContains p.content s
   | none => true) &&
  (match q.pageType with | some t => p.pageType == t | none => true)

def listPages (db : List Page) (user : Option AuthUser) (ps : PageListParams)
    (sortFn : List Page → List Page) : List Page :=
  (((sortFn (db.filter (pageMatches (buildPageListQuery user ps)))).drop
      ((ps.page - 1) * ps.limit)).take ps.limit)

/-- Parsed query string of the public `GET /api/testimonials`
(`rating` is the parsed `parseInt(rating)` floor). -/
structure TestimonialListParams where
  page : Nat
  limit : Nat
  search : Option String
  type : Option String
  rating : Option Int
  featured : Option String
deriving Repr, DecidableEq, Inhabited

/-- The mongo filter built by the public `GET /api/testimonials`:
`{ status: 'approved', isPublic: true }` plus the optional refinements. -/
def publicTestimonialMatches (ps : TestimonialListParams) (t : Testimonial) : Bool :=
  (t.status == "approved") &&
  t.isPublic &&
  (match (if tvStr ps.search then ps.search else none) with
   | some s => ciContains t.name s || ciContains t.company s || ciContains t.content s
   | none => true) &&
  (match (if tvStr ps.type then ps.type else none) with
   | some ty => t.testimonialType == ty
   | none => true) &&
  (match ps.rating with | some r => (r : Rat) ≤ t.rating | none => true) &&
  (if ps.featured = some "true" then t.isFeatured else true)

/-- `.select('-contactInfo')`: the public projection drops contact info. -/
def stripContactInfo (t : Testimonial) : Testimonial := { t with contactInfo := none }

def listTestimonials (db : List Testimonial) (ps : TestimonialListParams)
    (sortFn : List Testimonial → List Testimonial) : List Testimonial :=
  ((((sortFn (db.filter (publicTestimonialMatches ps))).drop
      ((ps.page - 1) * ps.limit)).take ps.limit).map stripContactInfo)

/-! ## Helper lemmas -/

theorem setIfTruthy_some_ne (cur s : String) (h : s ≠ "") :
    setIfTruthy cur (some s) = s := by
  unfold setIfTruthy
  exact if_neg h

theorem postSlugStep_status (st : Option Post) (p : Post) :
    (postSlugStep st p).status = p.status := by
  unfold postSlugStep; split <;> rfl

theorem postSlugStep_publishedAt (st : Option Post) (p : Post) :
    (postSlugStep st p).publishedAt = p.publishedAt := by
  unfold postSlugStep; split <;> rfl

theorem postSlugStep_title (st : Option Post) (p : Post) :
    (postSlugStep st p).title = p.title := by
  unfold postSlugStep; split <;> rfl

theorem postReadTimeStep_status (st : Option Post) (p : Post) :
    (postReadTimeStep st p).status = p.status := by
  unfold postReadTimeStep; split <;> rfl

theorem postReadTimeStep_publishedAt (st : Option Post) (p : Post) :
    (postReadTimeStep st p).publishedAt = p.publishedAt := by
  unfold postReadTimeStep; split <;> rfl

theorem postReadTimeStep_slug (st : Option Post) (p : Post) :
    (postReadTimeStep st p).slug = p.slug := by
  unfold postReadTimeStep; split <;> rfl

theorem postPublishStep_slug (st : Option Post) (p : Post) (now : Nat) :
    (postPublishStep st p now).slug = p.slug := by
  unfold postPublishStep; split <;> rfl

theorem pageSlugStep_status (st : Option Page) (p : Page) :
    (pageSlugStep st p).status = p.status := by
  unfold pageSlugStep; split <;> rfl

theorem pageSlugStep_publishedAt (st : Option Page) (p : Page) :
    (pageSlugStep st p).publishedAt = p.publishedAt := by
  unfold pageSlugStep; split <;> rfl

theorem pageSlugStep_isHomePage (st : Option Page) (p : Page) :
    (pageSlugStep st p).isHomePage = p.isHomePage := by
  unfold pageSlugStep; split <;> rfl

theorem pagePublishStep_slug (st : Option Page) (p : Page) (now : Nat) :
    (pagePublishStep st p now).slug = p.slug := by
  unfold pagePublishStep; split <;> rfl

theorem pagePublishStep_isHomePage (st : Option Page) (p : Page) (now : Nat) :
    (pagePublishStep st p now).isHomePage = p.isHomePage := by
  unfold pagePublishStep; split <;> rfl

theorem csSlugStep_status (st : Option CaseStudy) (p : CaseStudy) :
    (csSlugStep st p).status = p.status := by
  unfold csSlugStep; split <;> rfl

theorem csSlugStep_publishedAt (st : Option CaseStudy) (p : CaseStudy) :
    (csSlugStep st p).publishedAt = p.publishedAt := by
  unfold csSlugStep; split <;> rfl

/-! ## Claim theorems -/

/-- C9: the `PUT /api/contact/:id` handler never sets `responseDate`: for
every update request — including one that changes the status to
`'replied'` — the stored `responseDate` is unchanged, because the handler
assigns the new status to the document before testing whether the stored
status differs from `'replied'`. -/
theorem contactUpdate_never_sets_responseDate (c : Contact)
    (b : ContactUpdateBody) (now : Nat) :
    (updateContact c b now).responseDate = c.responseDate := by
  unfold updateContact
  rcases hb : b.status with _ | s
  · simp [hb]
  · by_cases hs : s = "replied"
    · subst hs
      simp [setIfTruthy]
    · simp [hb, hs]

/-- C8: every contact stored by `POST /api/contact` has status `'new'` and
priority `'medium'`, independently of any `status`/`priority` values in
the request body. -/
theorem contact_stored_with_default_status_priority
    (isEmail : String → Bool) (b : ContactBody) (ip ua : Option String) :
    ((submitContact isEmail b ip ua).saved.all
      fun c => c.status == "new" && c.priority == "medium") = true := by
  by_cases h : contactValidationErrors isEmail b = []
  · simp [submitContact, h]
  · simp [submitContact, h]

/-- C10: every testimonial stored through the public
`POST /api/testimonials/submit` endpoint has status `'pending'`,
`isPublic = false` and `isFeatured = false`, independently of any
`status`/`isPublic`/`isFeatured` values in the request body. -/
theorem public_submission_always_pending_private
    (b : TestimonialSubmitBody) (now : Nat) :
    ((submitTestimonial b now).saved.all
      fun t => t.status == "pending" && !t.isPublic && !t.isFeatured) = true := by
  unfold submitTestimonial
  dsimp only
  split
  · rfl
  · split <;> rfl

/-- C4: for the testimonial create, public submit, and update handlers, a
body carrying a rating outside the closed interval `[1, 5]` yields a 400
response with `success = false` and nothing persisted, while a rating
inside `[1, 5]` passes the check (and, with the required fields present,
the request succeeds and persists the document). -/
theorem testimonial_rating_bounds
    (b : TestimonialCreateBody) (sb : TestimonialSubmitBody)
    (st : Testimonial) (ub : TestimonialUpdateBody) (now : Nat)
    (r rs ru : Rat) :
    (b.rating = some r → r < 1 ∨ r > 5 →
      (createTestimonial b now).status = 400 ∧
      (createTestimonial b now).success = false ∧
      (createTestimonial b now).saved = none) ∧
    (tvStr b.name = true → tvStr b.position = true → tvStr b.company = true →
      tvStr b.content = true → b.rating = some r → 1 ≤ r → r ≤ 5 →
      (createTestimonial b now).status = 201 ∧
      (createTestimonial b now).saved.isSome = true) ∧
    (sb.rating = some rs → rs < 1 ∨ rs > 5 →
      (submitTestimonial sb now).status = 400 ∧
      (submitTestimonial sb now).success = false ∧
      (submitTestimonial sb now).saved = none) ∧
    (tvStr sb.name = true → tvStr sb.position = true → tvStr sb.company = true →
      tvStr sb.content = true → sb.rating = some rs → 1 ≤ rs → rs ≤ 5 →
      (submitTestimonial sb now).status = 201 ∧
      (submitTestimonial sb now).saved.isSome = true) ∧
    (ub.rating = some ru → ru < 1 ∨ ru > 5 →
      (updateTestimonial st ub).status = 400 ∧
      (updateTestimonial st ub).success = false ∧
      (updateTestimonial st ub).saved = none) ∧
    (ub.rating = some ru → 1 ≤ ru → ru ≤ 5 →
      (updateTestimonial st ub).status = 200 ∧
      (updateTestimonial st ub).saved.isSome = true) := by
  refine ⟨?_, ?_, ?_, ?_, ?_, ?_⟩
  · intro h hout
    have hko : ¬ (1 ≤ r ∧ r ≤ 5) := by
      rcases hout with h' | h'
      · exact fun hc => absurd hc.1 (not_le.mpr h')
      · exact fun hc => absurd hc.2 (not_le.mpr h')
    unfold createTestimonial
    rw [h]
    dsimp only [Option.getD_some]
    split
    · exact ⟨rfl, rfl, rfl⟩
    · exact ⟨rfl, rfl, rfl⟩
  · intro hn hp hc hco h h1 h5
    have hin : ¬ (r < 1 ∨ r > 5) := by
      rintro (h' | h')
      · exact absurd h1 (not_le.mpr h')
      · exact absurd h5 (not_le.mpr h')
    unfold createTestimonial
    rw [h]
    dsimp only [Option.getD_some]
    rw [if_neg (by exact not_not_intro ⟨hn, hp, hc, hco⟩), if_neg hin]
    exact ⟨rfl, rfl⟩
  · intro h hout
    unfold submitTestimonial
    rw [h]
    dsimp only [Option.getD_some]
    split
    · exact ⟨rfl, rfl, rfl⟩
    · exact ⟨rfl, rfl, rfl⟩
  · intro hn hp hc hco h h1 h5
    have hin : ¬ (rs < 1 ∨ rs > 5) := by
      rintro (h' | h')
      · exact absurd h1 (not_le.mpr h')
      · exact absurd h5 (not_le.mpr h')
    unfold submitTestimonial
    rw [h]
    dsimp only [Option.getD_some]
    rw [if_neg (by exact not_not_intro ⟨hn, hp, hc, hco⟩), if_neg hin]
    exact ⟨rfl, rfl⟩
  · intro h hout
    unfold updateTestimonial
    rw [h]
    dsimp only [Option.isSome_some, Option.getD_some]
    rw [if_pos ⟨rfl, hout⟩]
    exact ⟨rfl, rfl, rfl⟩
  · intro h h1 h5
    have hin : ¬ (Option.isSome ub.rating = true ∧
        ((ub.rating.getD 0) < 1 ∨ (ub.rating.getD 0) > 5)) := by
      rw [h]
      dsimp only [Option.isSome_some, Option.getD_some]
      rintro ⟨-, h' | h'⟩
      · exact absurd h1 (not_le.mpr h')
      · exact absurd h5 (not_le.mpr h')
    unfold updateTestimonial
    rw [if_neg hin]
    exact ⟨rfl, rfl⟩

/-- Witness for `testimonial_rating_bounds`: concrete requests exercising
every branch. -/
theorem testimonial_rating_bounds_witness :
    (createTestimonial
      { (default : TestimonialCreateBody) with
        name := some "Ann", position := some "CTO", company := some "Acme",
        content := some "Great work all around", rating := some 9 } 0).status = 400 ∧
    (createTestimonial
      { (default : TestimonialCreateBody) with
        name := some "Ann", position := some "CTO", company := some "Acme",
        content := some "Great work all around", rating := some 3 } 0).status = 201 ∧
    (submitTestimonial
      { (default : TestimonialSubmitBody) with
        name := some "Bob", position := some "CEO", company := some "Initech",
        content := some "Very happy with the result", rating := some 0 } 0).saved = none ∧
    (submitTestimonial
      { (default : TestimonialSubmitBody) with
        name := some "Bob", position := some "CEO", company := some "Initech",
        content := some "Very happy with the result", rating := some 5 } 0).status = 201 ∧
    (updateTestimonial default
      { (default : TestimonialUpdateBody) with rating := some 6 }).saved = none ∧
    (updateTestimonial default
      { (default : TestimonialUpdateBody) with rating := some 1 }).status = 200 := by
  refine ⟨?_, ?_, ?_, ?_, ?_, ?_⟩
  · exact (testimonial_rating_bounds _ default default default 0 9 0 0).1
      rfl (Or.inr (by norm_num)) |>.1
  · exact ((testimonial_rating_bounds _ default default default 0 3 0 0).2.1
      (by decide) (by decide) (by decide) (by decide) rfl (by norm_num) (by norm_num)).1
  · exact ((testimonial_rating_bounds default _ default default 0 0 0 0).2.2.1
      rfl (Or.inl (by norm_num))).2.2
  · exact ((testimonial_rating_bounds default _ default default 0 0 5 0).2.2.2.1
      (by decide) (by decide) (by decide) (by decide) rfl (by norm_num) (by norm_num)).1
  · exact ((testimonial_rating_bounds default default default _ 0 0 0 6).2.2.2.2.1
      rfl (Or.inr (by norm_num))).2.2
  · exact ((testimonial_rating_bounds default default default _ 0 0 0 1).2.2.2.2.2
      rfl (by norm_num) (by norm_num)).1

/-- C5 counterexample: a `POST /api/contact` body whose name is exactly 2
characters after trimming is accepted (HTTP 200, record stored), not
rejected with 400 — `isLength({ min: 2 })` admits length 2. -/
theorem contact_two_char_name_accepted :
    ((jsTrim (ContactBody.name
      { (default : ContactBody) with
        name := "Jo", email := "jo@example.com",
        subject := "Project inquiry",
        message := "I would like a quote." })).length = 2) ∧
    (submitContact (fun _ => true)
      { (default : ContactBody) with
        name := "Jo", email := "jo@example.com",
        subject := "Project inquiry",
        message := "I would like a quote." } none none).status = 200 ∧
    (submitContact (fun _ => true)
      { (default : ContactBody) with
        name := "Jo", email := "jo@example.com",
        subject := "Project inquiry",
        message := "I would like a quote." } none none).success = true ∧
    (submitContact (fun _ => true)
      { (default : ContactBody) with
        name := "Jo", email := "jo@example.com",
        subject := "Project inquiry",
        message := "I would like a quote." } none none).saved.isSome = true := by
  decide

/-- C5 (amended): a name shorter than 2 characters after trimming is
rejected with 400, the message requiring at least 2 characters, and no
stored submission; a name of 2 or more characters (so in particular the
2-character `"Jo"`) passes the name validation. -/
theorem contact_name_minlength_validation (isEmail : String → Bool)
    (b : ContactBody) (ip ua : Option String) :
    ((jsTrim b.name).length < 2 →
      (submitContact isEmail b ip ua).status = 400 ∧
      (submitContact isEmail b ip ua).success = false ∧
      "Name must be at least 2 characters" ∈ (submitContact isEmail b ip ua).errors ∧
      (submitContact isEmail b ip ua).saved = none) ∧
    (2 ≤ (jsTrim b.name).length →
      "Name must be at least 2 characters" ∉ (submitContact isEmail b ip ua).errors) := by
  constructor
  · intro h
    have herr : contactValidationErrors isEmail b =
        "Name must be at least 2 characters" ::
        ((if ¬ isEmail b.email then ["Please enter a valid email"] else []) ++
          ((if (jsTrim b.subject).length < 5 then ["Subject must be at least 5 characters"] else []) ++
            (if (jsTrim b.message).length < 10 then ["Message must be at least 10 characters"] else []))) := by
      unfold contactValidationErrors
      rw [if_pos h]
      simp
    unfold submitContact
    rw [herr, if_pos (List.cons_ne_nil _ _)]
    exact ⟨rfl, rfl, List.mem_cons_self _ _, rfl⟩
  · intro h
    have hname : ¬ ((jsTrim b.name).length < 2) := not_lt.mpr h
    have herr : contactValidationErrors isEmail b =
        ((if ¬ isEmail b.email then ["Please enter a valid email"] else []) ++
          ((if (jsTrim b.subject).length < 5 then ["Subject must be at least 5 characters"] else []) ++
            (if (jsTrim b.message).length < 10 then ["Message must be at least 10 characters"] else []))) := by
      unfold contactValidationErrors
      rw [if_neg hname]
      simp
    have hnotmem : "Name must be at least 2 characters" ∉ contactValidationErrors isEmail b := by
      rw [herr]
      intro hmem
      rcases List.mem_append.mp hmem with h1 | h23
      · split at h1 <;> simp_all
      · rcases List.mem_append.mp h23 with h2 | h3
        · split at h2 <;> simp_all
        · split at h3 <;> simp_all
    unfold submitContact
    dsimp only
    split
    · exact hnotmem
    · simp

/-- Witness for `contact_name_minlength_validation`: a 1-character name is
rejected, a 2-character name passes the name rule. -/
theorem contact_name_minlength_validation_witness :
    (submitContact (fun _ => true)
      { (default : ContactBody) with name := "J" } none none).status = 400 ∧
    "Name must be at least 2 characters" ∉
      (submitContact (fun _ => true)
        { (default : ContactBody) with
          name := "Jo", email := "jo@example.com",
          subject := "Project inquiry",
          message := "I would like a quote." } none none).errors := by
  constructor
  · exact ((contact_name_minlength_validation (fun _ => true) _ none none).1
      (by decide)).1
  · exact (contact_name_minlength_validation (fun _ => true) _ none none).2
      (by decide)

/-- Every rejection issued by `protect` carries status 401. -/
theorem protect_reject_is_401 (h : Option String)
    (verify : String → Option String) (findUser : String → Option AuthUser)
    (s : Nat) (m : String) (hr : protect h verify findUser = .reject s m) :
    s = 401 := by
  unfold protect at hr
  repeat' split at hr
  all_goals first
    | (injection hr with h1 h2; exact h1.symm)
    | cases hr

/-- C6: through the `protect`-then-`authorize` chain, the response is 401
when the bearer token is missing or empty, when signature verification
fails, when the referenced user does not exist, or when the user is
inactive; a user let through by `protect` is active; and the chain rejects
with 403 exactly when `protect` authenticated an (active) user whose role
is not in the route's allow-list. -/
theorem auth_middleware_status_codes (roles : List String) (h : Option String)
    (verify : String → Option String) (findUser : String → Option AuthUser) :
    (extractToken h = none ∨ extractToken h = some "" →
      protectThenAuthorize roles h verify findUser =
        .reject 401 "Access denied. No token provided.") ∧
    (∀ t, extractToken h = some t → t ≠ "" → verify t = none →
      protectThenAuthorize roles h verify findUser =
        .reject 401 "Token is not valid") ∧
    (∀ t uid, extractToken h = some t → t ≠ "" → verify t = some uid →
      findUser uid = none →
      protectThenAuthorize roles h verify findUser =
        .reject 401 "Token is not valid") ∧
    (∀ t uid u, extractToken h = some t → t ≠ "" → verify t = some uid →
      findUser uid = some u → u.isActive = false →
      protectThenAuthorize roles h verify findUser =
        .reject 401 "Account has been deactivated") ∧
    (∀ u, protect h verify findUser = .ok u → u.isActive = true) ∧
    ((∃ m, protectThenAuthorize roles h verify findUser = .reject 403 m) ↔
      (∃ u, protect h verify findUser = .ok u ∧ roles.contains u.role = false)) := by
  refine ⟨?_, ?_, ?_, ?_, ?_, ?_⟩
  · rintro (ht | ht) <;>
      simp [protectThenAuthorize, protect, ht]
  · intro t ht hne hv
    simp [protectThenAuthorize, protect, ht, hne, hv]
  · intro t uid ht hne hv hu
    simp [protectThenAuthorize, protect, ht, hne, hv, hu]
  · intro t uid u ht hne hv hu ha
    simp [protectThenAuthorize, protect, ht, hne, hv, hu, ha]
  · intro u hp
    unfold protect at hp
    repeat' split at hp
    all_goals cases hp
    exact not_not.mp (by assumption)
  · constructor
    · rintro ⟨m, hm⟩
      unfold protectThenAuthorize at hm
      split at hm
      · rename_i s m' hpr
        have h401 := protect_reject_is_401 h verify findUser s m' hpr
        injection hm with h1 h2
        exact absurd h401 (by rw [h1]; decide)
      · rename_i u hpr
        unfold authorize at hm
        dsimp only at hm
        by_cases hrole : roles.contains u.role
        · rw [if_neg (not_not_intro hrole)] at hm
          cases hm
        · exact ⟨u, hpr, by simpa using hrole⟩
    · rintro ⟨u, hp, hrole⟩
      refine ⟨"Role " ++ u.role ++ " is not authorized to access this route", ?_⟩
      unfold protectThenAuthorize
      rw [hp]
      unfold authorize
      dsimp only
      rw [if_pos (by rw [hrole]; decide)]

/-- Witness for `auth_middleware_status_codes`: a missing header is
rejected 401, and an active viewer hitting an admin-only route is
rejected 403. -/
theorem auth_middleware_status_codes_witness :
    protectThenAuthorize ["admin"] none (fun _ => none) (fun _ => none) =
      .reject 401 "Access denied. No token provided." ∧
    (∃ m, protectThenAuthorize ["admin"] (some "Bearer tok")
        (fun _ => some "u1")
        (fun _ => some { id := "u1", role := "viewer", isActive := true }) =
      .reject 403 m) := by
  constructor
  · exact (auth_middleware_status_codes ["admin"] none
      (fun _ => none) (fun _ => none)).1 (Or.inl rfl)
  · exact (auth_middleware_status_codes ["admin"] (some "Bearer tok")
      (fun _ => some "u1")
      (fun _ => some { id := "u1", role := "viewer", isActive := true })).2.2.2.2.2.mpr
      ⟨{ id := "u1", role := "viewer", isActive := true }, by decide, by decide⟩

/-- The route-level `publishedAt` assignment in `PUT /api/posts/:id` is dead
code: it tests `post.status !== 'published'` after `post.status` has
already been assigned, so the assignment block never touches
`publishedAt`. -/
theorem applyPostUpdate_publishedAt (p : Post) (b : PostUpdateBody) (now : Nat) :
    (applyPostUpdate p b now).publishedAt = p.publishedAt := by
  unfold applyPostUpdate
  dsimp only
  rw [if_neg]
  rintro ⟨h1, h2⟩
  exact h2 (by rw [h1]; exact setIfTruthy_some_ne _ _ (by decide))

theorem applyPageUpdate_publishedAt (p : Page) (b : PageUpdateBody) (now : Nat) :
    (applyPageUpdate p b now).publishedAt = p.publishedAt := by
  unfold applyPageUpdate
  dsimp only
  rw [if_neg]
  rintro ⟨h1, h2⟩
  exact h2 (by rw [h1]; exact setIfTruthy_some_ne _ _ (by decide))

theorem applyCaseStudyUpdate_publishedAt (p : CaseStudy) (b : CaseStudyUpdateBody)
    (now : Nat) :
    (applyCaseStudyUpdate p b now).publishedAt = p.publishedAt := by
  unfold applyCaseStudyUpdate
  dsimp only
  rw [if_neg]
  rintro ⟨h1, h2⟩
  exact h2 (by rw [h1]; exact setIfTruthy_some_ne _ _ (by decide))

theorem updatePost_publishedAt_preserved (sp : Post) (b : PostUpdateBody)
    (now t : Nat) (h : sp.publishedAt = some t) :
    (updatePost sp b now).publishedAt = some t := by
  have hq : (postReadTimeStep (some sp)
      (postSlugStep (some sp) (applyPostUpdate sp b now))).publishedAt = some t := by
    rw [postReadTimeStep_publishedAt, postSlugStep_publishedAt,
      applyPostUpdate_publishedAt, h]
  unfold updatePost postPreSave postPublishStep
  rw [if_neg]
  · exact hq
  · rintro ⟨-, -, h3⟩
    rw [hq] at h3
    cases h3

theorem updatePost_stamps (sp : Post) (b : PostUpdateBody) (now : Nat)
    (hnone : sp.publishedAt = none) (hstat : sp.status ≠ "published")
    (hb : b.status = some "published") :
    (updatePost sp b now).publishedAt = some now := by
  have hq_pub : (postReadTimeStep (some sp)
      (postSlugStep (some sp) (applyPostUpdate sp b now))).publishedAt = none := by
    rw [postReadTimeStep_publishedAt, postSlugStep_publishedAt,
      applyPostUpdate_publishedAt, hnone]
  have hq_status : (postReadTimeStep (some sp)
      (postSlugStep (some sp) (applyPostUpdate sp b now))).status = "published" := by
    rw [postReadTimeStep_status, postSlugStep_status]
    unfold applyPostUpdate
    dsimp only
    rw [hb]
    exact setIfTruthy_some_ne _ _ (by decide)
  have hmod : postStatusModified (some sp) (postReadTimeStep (some sp)
      (postSlugStep (some sp) (applyPostUpdate sp b now))) = true := by
    simp only [postStatusModified, hq_status, ne_eq, decide_eq_true_eq]
    exact fun hc => hstat hc.symm
  unfold updatePost postPreSave postPublishStep
  rw [if_pos ⟨hmod, hq_status, hq_pub⟩]

theorem updatePage_publishedAt_preserved (sp : Page) (b : PageUpdateBody)
    (now t : Nat) (h : sp.publishedAt = some t) :
    (updatePage sp b now).publishedAt = some t := by
  have hq : (pageSlugStep (some sp) (applyPageUpdate sp b now)).publishedAt =
      some t := by
    rw [pageSlugStep_publishedAt, applyPageUpdate_publishedAt, h]
  unfold updatePage pagePreSave pagePublishStep
  rw [if_neg]
  · exact hq
  · rintro ⟨-, -, h3⟩
    rw [hq] at h3
    cases h3

theorem updatePage_stamps (sp : Page) (b : PageUpdateBody) (now : Nat)
    (hnone : sp.publishedAt = none) (hstat : sp.status ≠ "published")
    (hb : b.status = some "published") :
    (updatePage sp b now).publishedAt = some now := by
  have hq_pub : (pageSlugStep (some sp) (applyPageUpdate sp b now)).publishedAt =
      none := by
    rw [pageSlugStep_publishedAt, applyPageUpdate_publishedAt, hnone]
  have hq_status : (pageSlugStep (some sp) (applyPageUpdate sp b now)).status =
      "published" := by
    rw [pageSlugStep_status]
    unfold applyPageUpdate
    dsimp only
    rw [hb]
    exact setIfTruthy_some_ne _ _ (by decide)
  have hmod : pageStatusModified (some sp)
      (pageSlugStep (some sp) (applyPageUpdate sp b now)) = true := by
    simp only [pageStatusModified, hq_status, ne_eq, decide_eq_true_eq]
    exact fun hc => hstat hc.symm
  unfold updatePage pagePreSave pagePublishStep
  rw [if_pos ⟨hmod, hq_status, hq_pub⟩]

theorem updateCaseStudy_publishedAt_preserved (sp : CaseStudy)
    (b : CaseStudyUpdateBody) (now t : Nat) (h : sp.publishedAt = some t) :
    (updateCaseStudy sp b now).publishedAt = some t := by
  have hq : (csSlugStep (some sp) (applyCaseStudyUpdate sp b now)).publishedAt =
      some t := by
    rw [csSlugStep_publishedAt, applyCaseStudyUpdate_publishedAt, h]
  unfold updateCaseStudy csPreSave csPublishStep
  rw [if_neg]
  · exact hq
  · rintro ⟨-, -, h3⟩
    rw [hq] at h3
    cases h3

theorem updateCaseStudy_stamps (sp : CaseStudy) (b : CaseStudyUpdateBody)
    (now : Nat) (hnone : sp.publishedAt = none)
    (hstat : sp.status ≠ "published") (hb : b.status = some "published") :
    (updateCaseStudy sp b now).publishedAt = some now := by
  have hq_pub : (csSlugStep (some sp) (applyCaseStudyUpdate sp b now)).publishedAt =
      none := by
    rw [csSlugStep_publishedAt, applyCaseStudyUpdate_publishedAt, hnone]
  have hq_status : (csSlugStep (some sp) (applyCaseStudyUpdate sp b now)).status =
      "published" := by
    rw [csSlugStep_status]
    unfold applyCaseStudyUpdate
    dsimp only
    rw [hb]
    exact setIfTruthy_some_ne _ _ (by decide)
  have hmod : csStatusModified (some sp)
      (csSlugStep (some sp) (applyCaseStudyUpdate sp b now)) = true := by
    simp only [csStatusModified, hq_status, ne_eq, decide_eq_true_eq]
    exact fun hc => hstat hc.symm
  unfold updateCaseStudy csPreSave csPublishStep
  rw [if_pos ⟨hmod, hq_status, hq_pub⟩]

/-- On a new document every path is modified, so the pre-save hook stamps
`publishedAt` exactly when the document is being saved as published
without a timestamp. -/
theorem postPreSave_new_publishedAt (p : Post) (now : Nat) :
    (postPreSave none p now).publishedAt =
      (if p.status = "published" ∧ p.publishedAt = none
       then some now else p.publishedAt) := by
  unfold postPreSave postPublishStep
  simp only [postStatusModified, postReadTimeStep_status, postSlugStep_status,
    postReadTimeStep_publishedAt, postSlugStep_publishedAt, true_and]
  split_ifs with h
  · rfl
  · rw [postReadTimeStep_publishedAt, postSlugStep_publishedAt]

/-- A post created through `POST /api/posts` carries a publish timestamp
exactly when it was created with status `'published'`. -/
theorem createPost_publishedAt (cb : PostCreateBody) (authorId : Nat)
    (titleExists : Bool) (now : Nat) (p : Post)
    (hp : (createPost cb authorId titleExists now).saved = some p) :
    p.publishedAt =
      (if cb.status.getD "draft" = "published" then some now else none) := by
  unfold createPost at hp
  split at hp
  · cases hp
  · split at hp
    · cases hp
    · dsimp only at hp
      injection hp with hpe
      subst hpe
      rw [postPreSave_new_publishedAt]
      dsimp only
      by_cases hs : cb.status.getD "draft" = "published"
      · simp [hs]
      · simp [hs]

/-- C2: for every content document (post, page, case study), a save whose
status transitions into `'published'` stamps `publishedAt` exactly once:
the first such save (through the PUT handler, or at creation for posts)
stamps the clock, and any later save of a document that already carries a
publish timestamp — including re-sending status `'published'` through the
PUT handler — leaves `publishedAt` unchanged. -/
theorem publish_timestamp_exactly_once
    (sp : Post) (bp : PostUpdateBody) (sg : Page) (bg : PageUpdateBody)
    (sc : CaseStudy) (bc : CaseStudyUpdateBody) (cb : PostCreateBody)
    (authorId : Nat) (titleExists : Bool) (now : Nat) :
    (∀ t, sp.publishedAt = some t → (updatePost sp bp now).publishedAt = some t) ∧
    (sp.publishedAt = none → sp.status ≠ "published" →
      bp.status = some "published" →
      (updatePost sp bp now).publishedAt = some now) ∧
    (∀ t, sg.publishedAt = some t → (updatePage sg bg now).publishedAt = some t) ∧
    (sg.publishedAt = none → sg.status ≠ "published" →
      bg.status = some "published" →
      (updatePage sg bg now).publishedAt = some now) ∧
    (∀ t, sc.publishedAt = some t →
      (updateCaseStudy sc bc now).publishedAt = some t) ∧
    (sc.publishedAt = none → sc.status ≠ "published" →
      bc.status = some "published" →
      (updateCaseStudy sc bc now).publishedAt = some now) ∧
    (∀ p, (createPost cb authorId titleExists now).saved = some p →
      p.publishedAt =
        (if cb.status.getD "draft" = "published" then some now else none)) :=
  ⟨fun t h => updatePost_publishedAt_preserved sp bp now t h,
   fun h1 h2 h3 => updatePost_stamps sp bp now h1 h2 h3,
   fun t h => updatePage_publishedAt_preserved sg bg now t h,
   fun h1 h2 h3 => updatePage_stamps sg bg now h1 h2 h3,
   fun t h => updateCaseStudy_publishedAt_preserved sc bc now t h,
   fun h1 h2 h3 => updateCaseStudy_stamps sc bc now h1 h2 h3,
   fun p hp => createPost_publishedAt cb authorId titleExists now p hp⟩

/-- Witness for `publish_timestamp_exactly_once`: a published post keeps
its original timestamp when `'published'` is re-sent, a draft page gets
stamped on its first publish, and a post created as published is stamped
at creation. -/
theorem publish_timestamp_exactly_once_witness :
    (updatePost
      { (default : Post) with status := "published", publishedAt := some 3 }
      { (default : PostUpdateBody) with status := some "published" }
      7).publishedAt = some 3 ∧
    (updatePage
      { (default : Page) with status := "draft", publishedAt := none }
      { (default : PageUpdateBody) with status := some "published" }
      7).publishedAt = some 7 ∧
    (updateCaseStudy
      { (default : CaseStudy) with status := "draft", publishedAt := none }
      { (default : CaseStudyUpdateBody) with status := some "published" }
      7).publishedAt = some 7 ∧
    ((createPost
      { (default : PostCreateBody) with
        title := some "T", content := some "C", category := some "news",
        status := some "published" } 1 false 7).saved.map Post.publishedAt) =
      some (some 7) := by
  refine ⟨?_, ?_, ?_, ?_⟩
  · exact (publish_timestamp_exactly_once _ _ default default default default
      default 1 false 7).1 3 rfl
  · exact (publish_timestamp_exactly_once default default _ _ default default
      default 1 false 7).2.2.2.1 rfl (by decide) rfl
  · exact (publish_timestamp_exactly_once default default default default _ _
      default 1 false 7).2.2.2.2.2.1 rfl (by decide) rfl
  · rcases hsaved : (createPost
      { (default : PostCreateBody) with
        title := some "T", content := some "C", category := some "news",
        status := some "published" } 1 false 7).saved with _ | p
    · exact absurd hsaved (by decide)
    · have := (publish_timestamp_exactly_once default default default default
        default default
        { (default : PostCreateBody) with
          title := some "T", content := some "C", category := some "news",
          status := some "published" } 1 false 7).2.2.2.2.2.2 p hsaved
      simp [this]

theorem postPreSave_slug (st : Option Post) (p : Post) (now : Nat) :
    (postPreSave st p now).slug =
      (if postTitleModified st p then slugify p.title else p.slug) := by
  unfold postPreSave
  rw [postPublishStep_slug, postReadTimeStep_slug]
  unfold postSlugStep
  split_ifs with h
  · rfl
  · rfl

theorem pagePreSave_slug (st : Option Page) (p : Page) (now : Nat) :
    (pagePreSave st p now).slug =
      (if pageTitleModified st p then slugify p.title else p.slug) := by
  unfold pagePreSave
  rw [pagePublishStep_slug]
  unfold pageSlugStep
  split_ifs with h
  · rfl
  · rfl

/-- C3 counterexample: updating a stored post titled `"a b"` (slug
`"a-b"`) to the different title `"a-b"` changes the title but leaves the
slug value unchanged, because `slugify` is not injective. -/
theorem slug_unchanged_despite_title_change :
    (updatePost
      { (default : Post) with title := "a b", slug := "a-b" }
      { (default : PostUpdateBody) with title := some "a-b" } 0).title ≠
      ({ (default : Post) with title := "a b", slug := "a-b" } : Post).title ∧
    (updatePost
      { (default : Post) with title := "a b", slug := "a-b" }
      { (default : PostUpdateBody) with title := some "a-b" } 0).slug =
      ({ (default : Post) with title := "a b", slug := "a-b" } : Post).slug := by
  decide

/-- C3 (amended): slug derivation is a deterministic function of the
title.  Whenever the title is modified, the saved slug is
`slugify(title)` — so two documents saved with identical titles get
identical slugs, while a changed title re-derives the slug, which may
coincide with the previous slug when the two titles normalize alike — and
saving without modifying the title leaves the slug untouched. -/
theorem slug_derivation_deterministic
    (s1 s2 p1 p2 : Post) (sg pg : Page) (n1 n2 : Nat) :
    (postTitleModified (some s1) p1 = true →
      (postPreSave (some s1) p1 n1).slug = slugify p1.title) ∧
    (postTitleModified (some s1) p1 = false →
      (postPreSave (some s1) p1 n1).slug = p1.slug) ∧
    (postTitleModified (some s1) p1 = true →
      postTitleModified (some s2) p2 = true → p1.title = p2.title →
      (postPreSave (some s1) p1 n1).slug = (postPreSave (some s2) p2 n2).slug) ∧
    ((postPreSave none p1 n1).slug = slugify p1.title) ∧
    (pageTitleModified (some sg) pg = true →
      (pagePreSave (some sg) pg n1).slug = slugify pg.title) ∧
    (pageTitleModified (some sg) pg = false →
      (pagePreSave (some sg) pg n1).slug = pg.slug) := by
  refine ⟨?_, ?_, ?_, ?_, ?_, ?_⟩
  · intro h
    rw [postPreSave_slug, if_pos h]
  · intro h
    rw [postPreSave_slug, if_neg (by rw [h]; exact Bool.false_ne_true)]
  · intro h1 h2 h12
    rw [postPreSave_slug, if_pos h1, postPreSave_slug, if_pos h2, h12]
  · rw [postPreSave_slug]
    simp [postTitleModified]
  · intro h
    rw [pagePreSave_slug, if_pos h]
  · intro h
    rw [pagePreSave_slug, if_neg (by rw [h]; exact Bool.false_ne_true)]

/-- Witness for `slug_derivation_deterministic` on concrete documents. -/
theorem slug_derivation_deterministic_witness :
    (postPreSave (some { (default : Post) with title := "Old Title" })
      { (default : Post) with title := "Hello World", slug := "old-title" }
      0).slug = slugify "Hello World" ∧
    (postPreSave (some { (default : Post) with title := "Same", slug := "same" })
      { (default : Post) with title := "Same", slug := "same" } 0).slug =
      "same" ∧
    (pagePreSave (some { (default : Page) with title := "Page Old" })
      { (default : Page) with title := "New Page", slug := "page-old" }
      0).slug = slugify "New Page" := by
  refine ⟨?_, ?_, ?_⟩
  · exact (slug_derivation_deterministic _ default _ default default default
      0 0).1 (by decide)
  · exact (slug_derivation_deterministic _ default _ default default default
      0 0).2.1 (by decide)
  · exact (slug_derivation_deterministic default default default default _ _
      0 0).2.2.2.2.1 (by decide)

/-- Membership survives sorting (a permutation) and pagination. -/
theorem mem_of_sorted_paginated {α : Type} {sortFn : List α → List α}
    (hs : ∀ l, List.Perm (sortFn l) l) (l : List α) (k n : Nat) {a : α}
    (ha : a ∈ ((sortFn l).drop k).take n) : a ∈ l :=
  (hs l).mem_iff.mp (List.mem_of_mem_drop (List.mem_of_mem_take ha))

/-- C1: a list request without an authenticated admin/editor user only
ever returns published posts and pages, and the public testimonial list
only ever returns approved, public testimonials — for every database
state, query parameters, and sort order. -/
theorem public_lists_only_published
    (pdb : List Post) (gdb : List Page) (tdb : List Testimonial)
    (user : Option AuthUser) (pp : PostListParams) (gp : PageListParams)
    (tp : TestimonialListParams)
    (sortP : List Post → List Post) (sortG : List Page → List Page)
    (sortT : List Testimonial → List Testimonial)
    (hP : ∀ l, List.Perm (sortP l) l) (hG : ∀ l, List.Perm (sortG l) l)
    (hT : ∀ l, List.Perm (sortT l) l)
    (hu : isPrivilegedContentUser user = false) :
    ((listPosts pdb user pp sortP).all fun p => p.status == "published") = true ∧
    ((listPages gdb user gp sortG).all fun g => g.status == "published") = true ∧
    ((listTestimonials tdb tp sortT).all
      fun t => t.status == "approved" && t.isPublic) = true := by
  refine ⟨?_, ?_, ?_⟩
  · rw [List.all_eq_true]
    intro p hp
    unfold listPosts at hp
    have hmem : p ∈ pdb.filter (postMatches (buildPostListQuery user pp)) :=
      mem_of_sorted_paginated hP _ _ _ hp
    have hmatch := (List.mem_filter.mp hmem).2
    unfold postMatches buildPostListQuery at hmatch
    rw [hu] at hmatch
    simp only [Bool.false_eq_true, if_false, Bool.and_eq_true] at hmatch
    exact hmatch.1.1.1.1
  · rw [List.all_eq_true]
    intro g hg
    unfold listPages at hg
    have hmem : g ∈ gdb.filter (pageMatches (buildPageListQuery user gp)) :=
      mem_of_sorted_paginated hG _ _ _ hg
    have hmatch := (List.mem_filter.mp hmem).2
    unfold pageMatches buildPageListQuery at hmatch
    rw [hu] at hmatch
    simp only [Bool.false_eq_true, if_false, Bool.and_eq_true] at hmatch
    exact hmatch.1.1
  · rw [List.all_eq_true]
    intro t ht
    unfold listTestimonials at ht
    obtain ⟨t', ht', rfl⟩ := List.mem_map.mp ht
    have hmem : t' ∈ tdb.filter (publicTestimonialMatches tp) :=
      mem_of_sorted_paginated hT _ _ _ ht'
    have hmatch := (List.mem_filter.mp hmem).2
    unfold publicTestimonialMatches at hmatch
    simp only [Bool.and_eq_true] at hmatch
    simp only [stripContactInfo, Bool.and_eq_true]
    exact ⟨hmatch.1.1.1.1.1, hmatch.1.1.1.1.2⟩

/-- Witness for `public_lists_only_published` on a concrete mixed
database with the identity sort. -/
theorem public_lists_only_published_witness :
    ((listPosts
      [{ (default : Post) with status := "published" },
       { (default : Post) with status := "draft" }] none
      { page := 1, limit := 10, search := none, category := none,
        tag := none, featured := none } (fun l => l)).all
      fun p => p.status == "published") = true ∧
    ((listPages
      [{ (default : Page) with status := "archived" },
       { (default : Page) with status := "published" }] none
      { page := 1, limit := 10, search := none, pageType := none }
      (fun l => l)).all fun g => g.status == "published") = true ∧
    ((listTestimonials
      [{ (default : Testimonial) with status := "approved", isPublic := true },
       { (default : Testimonial) with status := "pending" }]
      { page := 1, limit := 12, search := none, type := none,
        rating := none, featured := none } (fun l => l)).all
      fun t => t.status == "approved" && t.isPublic) = true :=
  public_lists_only_published _ _ _ none _ _ _ _ _ _
    (fun l => List.Perm.refl l) (fun l => List.Perm.refl l)
    (fun l => List.Perm.refl l) rfl

theorem filterHome_unset (db : List Page) :
    (unsetAllHomePages db).filter (fun p => p.isHomePage) = [] := by
  induction db with
  | nil => rfl
  | cons a l ih =>
    simp only [unsetAllHomePages, List.map_cons] at ih ⊢
    rw [List.filter_cons_of_neg]
    · exact ih
    · exact Bool.false_ne_true

theorem unsetAll_filter_id (db : List Page) (pid : Nat) :
    ((unsetAllHomePages db).filter (fun q => q.id == pid)).length =
      (db.filter (fun q => q.id == pid)).length := by
  induction db with
  | nil => rfl
  | cons a l ih =>
    simp only [unsetAllHomePages, List.map_cons] at ih ⊢
    rw [List.filter_cons, List.filter_cons]
    by_cases ha : (a.id == pid) = true
    · have ha' : (({ a with isHomePage := false } : Page).id == pid) = true := ha
      rw [if_pos ha, if_pos ha']
      simp [ih]
    · have ha' : ¬ ((({ a with isHomePage := false } : Page).id == pid) = true) := ha
      rw [if_neg ha, if_neg ha']
      exact ih

theorem countId_le_one (db : List Page) (pid : Nat)
    (h : (db.map Page.id).Nodup) :
    (db.filter (fun q => q.id == pid)).length ≤ 1 := by
  induction db with
  | nil => simp
  | cons a l ih =>
    rw [List.map_cons, List.nodup_cons] at h
    by_cases ha : a.id = pid
    · rw [List.filter_cons_of_pos (by simp [ha])]
      have hzero : l.filter (fun q => q.id == pid) = [] := by
        rw [List.filter_eq_nil_iff]
        intro q hq hq'
        rw [beq_iff_eq] at hq'
        exact h.1 (List.mem_map.mpr ⟨q, hq, by rw [hq', ha]⟩)
      rw [hzero]
      simp
    · rw [List.filter_cons_of_neg (by simp [ha])]
      exact ih h.2

theorem countHome_replace_le (db : List Page) (pid : Nat) (p' : Page) :
    ((db.map fun q => if q.id == pid then p' else q).filter
        (fun p => p.isHomePage)).length ≤
      (db.filter (fun p => p.isHomePage)).length +
      (db.filter (fun q => q.id == pid)).length := by
  induction db with
  | nil => simp
  | cons a l ih =>
    rw [List.map_cons]
    by_cases ha : (a.id == pid) = true
    · rw [if_pos ha, List.filter_cons, List.filter_cons, List.filter_cons]
      cases hp' : p'.isHomePage <;> cases hah : a.isHomePage <;>
        simp_all <;> omega
    · rw [if_neg ha, List.filter_cons, List.filter_cons, List.filter_cons]
      cases hah : a.isHomePage <;> (simp_all; try omega)

/-- Entries whose id differs from `pid` are untouched by the wholesale
`save` of the updated document. -/
theorem map_replace_id (l : List Page) (pid : Nat) (p' : Page)
    (hnp : ∀ q ∈ l, (q.id == pid) = false) :
    l.map (fun q => if q.id == pid then p' else q) = l := by
  induction l with
  | nil => rfl
  | cons x xs ih =>
    rw [List.map_cons,
      if_neg (by rw [hnp x (List.mem_cons_self x xs)]; exact Bool.false_ne_true),
      ih (fun q hq => hnp q (List.mem_cons_of_mem x hq))]

theorem countHome_replace (db : List Page) (pid : Nat) (p' e : Page)
    (h : (db.map Page.id).Nodup)
    (hfind : db.find? (fun p => p.id == pid) = some e) :
    ((db.map fun q => if q.id == pid then p' else q).filter
        (fun p => p.isHomePage)).length
      + (if e.isHomePage then 1 else 0)
    = (db.filter (fun p => p.isHomePage)).length
      + (if p'.isHomePage then 1 else 0) := by
  induction db with
  | nil => cases hfind
  | cons a l ih =>
    rw [List.map_cons, List.nodup_cons] at h
    by_cases ha : (a.id == pid) = true
    · rw [List.find?_cons_of_pos (p := fun q : Page => q.id == pid) _ ha] at hfind
      injection hfind with he
      subst he
      have hnp : ∀ q ∈ l, (q.id == pid) = false := by
        intro q hq
        rw [beq_eq_false_iff_ne]
        intro hq'
        rw [beq_iff_eq] at ha
        exact h.1 (List.mem_map.mpr ⟨q, hq, by rw [hq', ha]⟩)
      rw [List.map_cons, if_pos ha, map_replace_id l pid p' hnp,
        List.filter_cons, List.filter_cons]
      cases hp' : p'.isHomePage <;> cases hah : a.isHomePage <;>
        (simp_all; try omega)
    · rw [List.find?_cons_of_neg (p := fun q : Page => q.id == pid) _ ha] at hfind
      rw [List.map_cons, if_neg ha, List.filter_cons, List.filter_cons]
      have hrec := ih h.2 hfind
      cases hah : a.isHomePage <;> (simp_all; try omega)

theorem filter_singleton_le_one {α : Type} (p : α → Bool) (x : α) :
    (List.filter p [x]).length ≤ 1 := by
  rw [List.filter_cons, List.filter_nil]
  split <;> simp

theorem pagePreSave_isHomePage (st : Option Page) (p : Page) (now : Nat) :
    (pagePreSave st p now).isHomePage = p.isHomePage := by
  unfold pagePreSave
  rw [pagePublishStep_isHomePage, pageSlugStep_isHomePage]

theorem updatePage_isHomePage (p : Page) (b : PageUpdateBody) (now : Nat) :
    (updatePage p b now).isHomePage = b.isHomePage.getD p.isHomePage := by
  unfold updatePage
  rw [pagePreSave_isHomePage]
  rfl

/-- C7: in a sequential execution, the page-create and page-update
handlers preserve the invariant that at most one page has
`isHomePage = true`: a request that sets a page as home page first clears
every other page's flag. -/
theorem home_page_invariant_preserved
    (db : List Page) (cb : PageCreateBody) (b : PageUpdateBody)
    (pid authorId newId now : Nat)
    (hids : (db.map Page.id).Nodup)
    (hinv : atMostOneHomePage db) :
    atMostOneHomePage (createPageDb db cb authorId newId now).1 ∧
    atMostOneHomePage (updatePageDb db pid b now) := by
  constructor
  · unfold createPageDb
    split
    · exact hinv
    · dsimp only
      split
      · unfold atMostOneHomePage
        rw [List.filter_append, List.length_append, filterHome_unset]
        simpa using filter_singleton_le_one _ _
      · rename_i hflag
        unfold atMostOneHomePage at hinv ⊢
        rw [List.filter_append, List.length_append, List.filter_cons,
          List.filter_nil]
        rw [if_neg (by rw [pagePreSave_isHomePage]; exact hflag)]
        simpa using hinv
  · unfold updatePageDb
    split
    · exact hinv
    · rename_i page hfind
      split
      · exact hinv
      · dsimp only
        split
        · unfold atMostOneHomePage
          have hle := countHome_replace_le (unsetAllHomePages db) pid
            (updatePage page b now)
          have h0 : ((unsetAllHomePages db).filter
              (fun p => p.isHomePage)).length = 0 := by
            rw [filterHome_unset]
            rfl
          have hid := unsetAll_filter_id db pid
          have hle1 := countId_le_one db pid hids
          omega
        · rename_i hcase
          unfold atMostOneHomePage at hinv ⊢
          have heq := countHome_replace db pid (updatePage page b now) page
            hids hfind
          rw [updatePage_isHomePage] at heq
          rcases hb : b.isHomePage with _ | bv
          · rw [hb, Option.getD_none] at heq
            cases hpg : page.isHomePage
            · simp only [hpg, Bool.false_eq_true, if_false] at heq
              omega
            · simp only [hpg, eq_self_iff_true, if_true] at heq
              omega
          · cases bv
            · rw [hb, Option.getD_some] at heq
              simp only [Bool.false_eq_true, if_false] at heq
              cases hpg : page.isHomePage
              · simp only [hpg, Bool.false_eq_true, if_false] at heq
                omega
              · simp only [hpg, eq_self_iff_true, if_true] at heq
                omega
            · have hpg : page.isHomePage = true := by
                by_contra hc
                exact hcase ⟨by rw [hb]; rfl, hc⟩
              rw [hb, Option.getD_some] at heq
              simp only [hpg, eq_self_iff_true, if_true] at heq
              omega

/-- Witness for `home_page_invariant_preserved`: creating a new home page
over a database that already has one, and re-flagging a page as home. -/
theorem home_page_invariant_preserved_witness :
    atMostOneHomePage (createPageDb
      [{ (default : Page) with id := 1, isHomePage := true }]
      { (default : PageCreateBody) with
        title := "About", content := "x", isHomePage := some true }
      2 9 0).1 ∧
    atMostOneHomePage (updatePageDb
      [{ (default : Page) with id := 1, isHomePage := true }] 1
      { (default : PageUpdateBody) with isHomePage := some true } 0) :=
  home_page_invariant_preserved _ _ _ 1 2 9 0 (by decide)
    (by unfold atMostOneHomePage; decide)
